import Mathlib

/-
Shallow embedding of the hotel-reservation persistence layer
(reservation_system/res_system.py, class DatabaseHandler).

The SQLite database is modelled as an explicit state: one list of rows per
table plus the AUTOINCREMENT sequence counter of each table.  Every
DatabaseHandler method becomes a pure function from a state (and the
method's arguments) to a result and/or a new state.

Modelling decisions, all traced to the source:
* Column values are non-null Lean values (String / Nat / Int); the claims
  under verification never pass NULL, so the NOT NULL constraint never
  fires and is not represented.  NOT NULL does not reject empty strings in
  SQLite, and the PRAGMA named in DatabaseHandler.__init__
  (SQLITE_ALLOW_EMPTY_STRING) is not a pragma SQLite knows, so empty
  strings are accepted by the engine; the embedding therefore accepts them.
* AUTOINCREMENT assigns one more than the larger of the table's stored
  sequence value and the largest rowid present, which is what
  nextRowId computes; cursor.lastrowid is that fresh id.
* sqlite3.IntegrityError raised by INSERT is caught inside the three
  create methods, which then return None; this is modelled by returning
  (none, unchanged state).  UPDATE and DELETE statements do not catch it,
  so update/delete return Except DBError DB, an error leaving the state
  to the caller unchanged (each method runs a single SQL statement, so a
  failed statement mutates nothing).
* fetchone returns the first matching row of the table: List.find?.
-/

/-- A row of the Hotel table: ID, NAME (unique), LOCATION (unique). -/
structure HotelRow where
  id : Nat
  name : String
  location : String
deriving Repr, DecidableEq

/-- A row of the Customer table: ID, NAME, EMAIL (unique). -/
structure CustomerRow where
  id : Nat
  name : String
  email : String
deriving Repr, DecidableEq

/-- A row of the Reservation table: ID, HOTEL_ID and CUSTOMER_ID (foreign
keys with ON DELETE RESTRICT), DATE, NIGHTS. -/
structure ReservationRow where
  id : Nat
  hotel_id : Nat
  customer_id : Nat
  date : String
  nights : Int
deriving Repr, DecidableEq

/-- The database state: the three tables created by
create_tables_if_not_exist together with their AUTOINCREMENT counters. -/
structure DB where
  hotels : List HotelRow
  customers : List CustomerRow
  reservations : List ReservationRow
  hotelSeq : Nat
  customerSeq : Nat
  reservationSeq : Nat
deriving Repr, DecidableEq

/-- The freshly created database: all tables empty, all counters zero. -/
def emptyDB : DB := ⟨[], [], [], 0, 0, 0⟩

/-- The errors the Python methods can raise: sqlite3.IntegrityError
(constraint violation), ValueError (delete target missing),
sqlite3.OperationalError (malformed SQL text), and Python's
AttributeError (attribute access on None). -/
inductive DBError where
  | integrityError
  | valueError
  | operationalError
  | attributeError
deriving Repr, DecidableEq

/-- SQLite AUTOINCREMENT: the new rowid is one more than the larger of the
stored sequence value and every rowid present in the table. -/
def nextRowId (seq : Nat) (ids : List Nat) : Nat := ids.foldr max seq + 1

/-- The rowid the next INSERT INTO Hotel will be assigned. -/
def hotelNextId (db : DB) : Nat := nextRowId db.hotelSeq (db.hotels.map (·.id))

/-- The rowid the next INSERT INTO Customer will be assigned. -/
def customerNextId (db : DB) : Nat :=
  nextRowId db.customerSeq (db.customers.map (·.id))

/-- The rowid the next INSERT INTO Reservation will be assigned. -/
def reservationNextId (db : DB) : Nat :=
  nextRowId db.reservationSeq (db.reservations.map (·.id))

/-- DatabaseHandler.create_hotel: INSERT INTO Hotel (NAME, LOCATION);
the UNIQUE constraints on NAME and on LOCATION make the insert raise
IntegrityError exactly when some existing row already carries the name or
the location; the method catches that and returns None, otherwise it
returns Hotel(lastrowid, name, location). -/
def create_hotel (db : DB) (name location : String) : Option HotelRow × DB :=
  if ∃ r ∈ db.hotels, r.name = name ∨ r.location = location then
    (none, db)
  else
    (some ⟨hotelNextId db, name, location⟩,
     { db with
        hotels := db.hotels ++ [⟨hotelNextId db, name, location⟩],
        hotelSeq := hotelNextId db })

/-- DatabaseHandler.create_customer: INSERT INTO Customer (NAME, EMAIL);
only EMAIL is UNIQUE (NAME is not), so the insert fails exactly when the
email is already present; the method catches IntegrityError and returns
None, otherwise Customer(lastrowid, name, email). -/
def create_customer (db : DB) (name email : String) : Option CustomerRow × DB :=
  if ∃ r ∈ db.customers, r.email = email then
    (none, db)
  else
    (some ⟨customerNextId db, name, email⟩,
     { db with
        customers := db.customers ++ [⟨customerNextId db, name, email⟩],
        customerSeq := customerNextId db })

/-- DatabaseHandler.create_reservation: INSERT INTO Reservation; the two
foreign keys (PRAGMA foreign_keys = ON) make the insert raise
IntegrityError exactly when hotel_id or customer_id references no existing
row; the method catches that and returns None, otherwise
Reservation(lastrowid, hotel_id, customer_id, date, nights). -/
def create_reservation (db : DB) (hotel_id customer_id : Nat)
    (date : String) (nights : Int) : Option ReservationRow × DB :=
  if (∃ r ∈ db.hotels, r.id = hotel_id) ∧
      (∃ r ∈ db.customers, r.id = customer_id) then
    (some ⟨reservationNextId db, hotel_id, customer_id, date, nights⟩,
     { db with
        reservations := db.reservations ++
          [⟨reservationNextId db, hotel_id, customer_id, date, nights⟩],
        reservationSeq := reservationNextId db })
  else
    (none, db)

/-- The row transformation of UPDATE Hotel SET NAME, LOCATION WHERE ID. -/
def updHotel (hotel_id : Nat) (name location : String) (r : HotelRow) :
    HotelRow :=
  if r.id = hotel_id then { r with name := name, location := location } else r

/-- The row transformation of UPDATE Customer SET NAME, EMAIL WHERE ID. -/
def updCustomer (customer_id : Nat) (name email : String) (r : CustomerRow) :
    CustomerRow :=
  if r.id = customer_id then { r with name := name, email := email } else r

/-- The row transformation of UPDATE Reservation SET ... WHERE ID. -/
def updReservation (reservation_id hotel_id customer_id : Nat)
    (date : String) (nights : Int) (r : ReservationRow) : ReservationRow :=
  if r.id = reservation_id then
    { r with
        hotel_id := hotel_id, customer_id := customer_id,
        date := date, nights := nights }
  else r

/-- DatabaseHandler.update_hotel: UPDATE Hotel SET NAME = ?, LOCATION = ?
WHERE ID = ?.  When no row matches the id the statement affects zero rows
and succeeds silently.  When the matched row is rewritten, SQLite checks
the UNIQUE constraints: if another row (the ID column is the primary key,
so distinct rows carry distinct ids) already holds the new name or the new
location, the statement raises IntegrityError, which update_hotel does not
catch. -/
def update_hotel (db : DB) (hotel_id : Nat) (name location : String) :
    Except DBError DB :=
  if ∃ r ∈ db.hotels, r.id = hotel_id then
    if ∃ r ∈ db.hotels, r.id ≠ hotel_id ∧
        (r.name = name ∨ r.location = location) then
      Except.error DBError.integrityError
    else
      Except.ok { db with hotels := db.hotels.map (updHotel hotel_id name location) }
  else
    Except.ok db

/-- DatabaseHandler.update_customer: UPDATE Customer SET name = ?,
email = ? WHERE ID = ?; zero matched rows succeed silently, and a new
email already held by another row raises IntegrityError (uncaught). -/
def update_customer (db : DB) (customer_id : Nat) (name email : String) :
    Except DBError DB :=
  if ∃ r ∈ db.customers, r.id = customer_id then
    if ∃ r ∈ db.customers, r.id ≠ customer_id ∧ r.email = email then
      Except.error DBError.integrityError
    else
      Except.ok { db with customers := db.customers.map (updCustomer customer_id name email) }
  else
    Except.ok db

/-- DatabaseHandler.update_reservation: UPDATE Reservation SET HOTEL_ID,
CUSTOMER_ID, DATE, NIGHTS WHERE ID = ?; zero matched rows succeed
silently, and rewriting the matched row checks both foreign keys: a
hotel_id or customer_id referencing no existing row raises IntegrityError
(uncaught). -/
def update_reservation (db : DB) (reservation_id hotel_id customer_id : Nat)
    (date : String) (nights : Int) : Except DBError DB :=
  if ∃ r ∈ db.reservations, r.id = reservation_id then
    if (∃ r ∈ db.hotels, r.id = hotel_id) ∧
        (∃ r ∈ db.customers, r.id = customer_id) then
      Except.ok { db with
        reservations := db.reservations.map
          (updReservation reservation_id hotel_id customer_id date nights) }
    else
      Except.error DBError.integrityError
  else
    Except.ok db

/-- DatabaseHandler.get_hotel_by_id: SELECT * FROM Hotel WHERE ID = ?
followed by fetchone; None when no row matches. -/
def get_hotel_by_id (db : DB) (hotel_id : Nat) : Option HotelRow :=
  db.hotels.find? (fun r => r.id == hotel_id)

/-- DatabaseHandler.get_customer_by_id: SELECT ... WHERE ID, fetchone. -/
def get_customer_by_id (db : DB) (customer_id : Nat) : Option CustomerRow :=
  db.customers.find? (fun r => r.id == customer_id)

/-- DatabaseHandler.get_reservation_by_id: SELECT ... WHERE ID, fetchone. -/
def get_reservation_by_id (db : DB) (reservation_id : Nat) :
    Option ReservationRow :=
  db.reservations.find? (fun r => r.id == reservation_id)

/-- DatabaseHandler.get_hotel_by_name: SELECT ... WHERE NAME, fetchone. -/
def get_hotel_by_name (db : DB) (hotel_name : String) : Option HotelRow :=
  db.hotels.find? (fun r => r.name == hotel_name)

/-- DatabaseHandler.get_customer_by_email: SELECT ... WHERE EMAIL,
fetchone. -/
def get_customer_by_email (db : DB) (customer_email : String) :
    Option CustomerRow :=
  db.customers.find? (fun r => r.email == customer_email)

/-- DatabaseHandler.delete_hotel: first get_hotel_by_id; a falsy result
raises ValueError.  Otherwise DELETE FROM Hotel WHERE ID = ?: the
ON DELETE RESTRICT foreign key of Reservation.HOTEL_ID makes the DELETE
raise IntegrityError (uncaught) when some reservation references the id;
otherwise the row is removed. -/
def delete_hotel (db : DB) (hotel_id : Nat) : Except DBError DB :=
  match get_hotel_by_id db hotel_id with
  | none => Except.error DBError.valueError
  | some _ =>
    if ∃ r ∈ db.reservations, r.hotel_id = hotel_id then
      Except.error DBError.integrityError
    else
      Except.ok { db with hotels := db.hotels.filter (fun r => r.id != hotel_id) }

/-- DatabaseHandler.delete_customer: existence check raising ValueError,
then DELETE FROM Customer WHERE ID = ?, blocked by the restrictive
Reservation.CUSTOMER_ID foreign key when referenced. -/
def delete_customer (db : DB) (customer_id : Nat) : Except DBError DB :=
  match get_customer_by_id db customer_id with
  | none => Except.error DBError.valueError
  | some _ =>
    if ∃ r ∈ db.reservations, r.customer_id = customer_id then
      Except.error DBError.integrityError
    else
      Except.ok { db with customers := db.customers.filter (fun r => r.id != customer_id) }

/-- DatabaseHandler.delete_reservation: existence check raising
ValueError, then DELETE FROM Reservation WHERE ID = ? (no table
references Reservation, so the delete always succeeds). -/
def delete_reservation (db : DB) (reservation_id : Nat) : Except DBError DB :=
  match get_reservation_by_id db reservation_id with
  | none => Except.error DBError.valueError
  | some _ =>
    Except.ok { db with reservations := db.reservations.filter (fun r => r.id != reservation_id) }

/-- DatabaseHandler.get_reservation_by_details as written in the source.
The two lookups run first; building the parameter tuple evaluates
hotel.hotel_id and then customer.customer_id, so a None from either
lookup raises AttributeError.  When both lookups succeed, the SQL text is
two adjacent Python string literals whose concatenation reads
SELECT * FROM Reservation WHEREHOTEL_ID = ? AND CUSTOMER_ID = ? AND
DATE = ? (no space after WHERE), which SQLite rejects as a syntax error:
cursor.execute raises sqlite3.OperationalError.  The method therefore
never returns normally. -/
def get_reservation_by_details (db : DB)
    (hotel_name customer_email date : String) :
    Except DBError (Option ReservationRow) :=
  match get_hotel_by_name db hotel_name with
  | none => Except.error DBError.attributeError
  | some _ =>
    match get_customer_by_email db customer_email with
    | none => Except.error DBError.attributeError
    | some _ => Except.error DBError.operationalError

/-- The state a caller observes after an update/delete call: the new
state on success, the old state when the single SQL statement raised
(a failed statement mutates nothing). -/
def applyUpd (db : DB) : Except DBError DB → DB
  | Except.ok db' => db'
  | Except.error _ => db

/-- One DatabaseHandler call, as a transition between database states. -/
inductive Step : DB → DB → Prop where
  | createHotel {db : DB} (n l : String) : Step db (create_hotel db n l).2
  | createCustomer {db : DB} (n e : String) : Step db (create_customer db n e).2
  | createReservation {db : DB} (h c : Nat) (d : String) (ni : Int) :
      Step db (create_reservation db h c d ni).2
  | updateHotel {db : DB} (i : Nat) (n l : String) :
      Step db (applyUpd db (update_hotel db i n l))
  | updateCustomer {db : DB} (i : Nat) (n e : String) :
      Step db (applyUpd db (update_customer db i n e))
  | updateReservation {db : DB} (i h c : Nat) (d : String) (ni : Int) :
      Step db (applyUpd db (update_reservation db i h c d ni))
  | deleteHotel {db : DB} (i : Nat) : Step db (applyUpd db (delete_hotel db i))
  | deleteCustomer {db : DB} (i : Nat) :
      Step db (applyUpd db (delete_customer db i))
  | deleteReservation {db : DB} (i : Nat) :
      Step db (applyUpd db (delete_reservation db i))

/-- Database states reachable from a fresh database through
DatabaseHandler calls. -/
inductive Reachable : DB → Prop where
  | init : Reachable emptyDB
  | step {db db' : DB} : Reachable db → Step db db' → Reachable db'

/-- The structural well-formedness the Hotel table's PRIMARY KEY and two
UNIQUE constraints maintain: no two rows share an id, a name, or a
location. -/
def hotelTableWF (hs : List HotelRow) : Prop :=
  (hs.map (·.id)).Nodup ∧ (hs.map (·.name)).Nodup ∧
    (hs.map (·.location)).Nodup

/-- Sample state: one hotel. -/
def dbH1 : DB := ⟨[⟨1, "Hotel A", "Location A"⟩], [], [], 1, 0, 0⟩

/-- Sample state: one hotel and one customer. -/
def dbHC : DB :=
  ⟨[⟨1, "Hotel A", "Location A"⟩], [⟨1, "John Doe", "john@example.com"⟩],
   [], 1, 1, 0⟩

/-- Sample state: one hotel, one customer, one reservation linking them. -/
def dbFull : DB :=
  ⟨[⟨1, "Hotel A", "Location A"⟩], [⟨1, "John Doe", "john@example.com"⟩],
   [⟨1, 1, 1, "2024-02-20", 5⟩], 1, 1, 1⟩

/-- Sample state: two hotels with distinct names and locations. -/
def dbTwoHotels : DB :=
  ⟨[⟨1, "Hotel A", "Location A"⟩, ⟨2, "Hotel B", "Location B"⟩],
   [], [], 2, 0, 0⟩

/-- Every member of a list is bounded by the list's foldr of max. -/
theorem le_foldr_max (seq i : Nat) :
    ∀ ids : List Nat, i ∈ ids → i ≤ ids.foldr max seq := by
  intro ids
  induction ids with
  | nil => intro h; cases h
  | cons a t ih =>
    intro h
    rcases List.mem_cons.mp h with h1 | h1
    · subst h1; exact le_max_left _ _
    · exact le_trans (ih h1) (le_max_right _ _)

/-- The AUTOINCREMENT rowid is fresh: it differs from every id present. -/
theorem nextRowId_not_mem (seq : Nat) (ids : List Nat) :
    ∀ i ∈ ids, i ≠ nextRowId seq ids := by
  intro i hi
  have h := le_foldr_max seq i ids hi
  unfold nextRowId
  omega

/-- Appending a row whose projected value clashes with no existing row
keeps the projected column duplicate-free. -/
theorem nodup_map_append_single {α β : Type} (l : List α) (x : α) (f : α → β)
    (h1 : (l.map f).Nodup) (h2 : ∀ a ∈ l, f a ≠ f x) :
    ((l ++ [x]).map f).Nodup := by
  rw [List.map_append, List.nodup_append]
  refine ⟨h1, by simp, ?_⟩
  intro b hb hbx
  rcases List.mem_map.mp hb with ⟨a, ha, rfl⟩
  simp only [List.map_cons, List.map_nil, List.mem_singleton] at hbx
  exact h2 a ha hbx

/-- A pointwise keyed update keeps a projected column duplicate-free,
provided the rewritten value clashes with no row of a different key. -/
theorem nodup_map_of_pointwise_update {α β : Type} (key : α → Nat)
    (val : α → β) (upd : α → α) (i : Nat) (vnew : β)
    (hhit : ∀ a, key a = i → val (upd a) = vnew)
    (hmiss : ∀ a, key a ≠ i → upd a = a) :
    ∀ l : List α, (l.map key).Nodup → (l.map val).Nodup →
      (∀ a ∈ l, key a ≠ i → val a ≠ vnew) → ((l.map upd).map val).Nodup := by
  intro l
  induction l with
  | nil => intro _ _ _; simp
  | cons a t ih =>
    intro hkeys hvals hok
    rw [List.map_cons, List.nodup_cons] at hkeys hvals
    rw [List.map_cons, List.map_cons, List.nodup_cons]
    constructor
    · intro hmem
      rcases List.mem_map.mp hmem with ⟨r', hr', hrv⟩
      rcases List.mem_map.mp hr' with ⟨r, hr, rfl⟩
      by_cases hri : key r = i
      · by_cases hai : key a = i
        · have hmem2 : key r ∈ t.map key := List.mem_map_of_mem key hr
          rw [hri, ← hai] at hmem2
          exact hkeys.1 hmem2
        · rw [hhit r hri, hmiss a hai] at hrv
          exact hok a (List.mem_cons_self a t) hai hrv.symm
      · rw [hmiss r hri] at hrv
        by_cases hai : key a = i
        · rw [hhit a hai] at hrv
          exact hok r (List.mem_cons_of_mem a hr) hri hrv
        · rw [hmiss a hai] at hrv
          exact hvals.1 (hrv ▸ List.mem_map_of_mem val hr)
    · exact ih hkeys.2 hvals.2 (fun r hr => hok r (List.mem_cons_of_mem a hr))

/-- UPDATE Hotel leaves the ID column untouched. -/
theorem map_updHotel_id (i : Nat) (n l : String) (hs : List HotelRow) :
    (hs.map (updHotel i n l)).map (·.id) = hs.map (·.id) := by
  rw [List.map_map]
  apply List.map_congr_left
  intro a _
  simp only [Function.comp]
  unfold updHotel
  split <;> rfl

/-- UPDATE Hotel matching no row rewrites nothing. -/
theorem map_updHotel_eq_self (i : Nat) (n l : String) (hs : List HotelRow)
    (h : ∀ r ∈ hs, r.id ≠ i) : hs.map (updHotel i n l) = hs := by
  have h2 : ∀ r ∈ hs, updHotel i n l r = id r := by
    intro r hr
    unfold updHotel
    rw [if_neg (h r hr)]
    rfl
  rw [List.map_congr_left h2, List.map_id]

/-- UPDATE Customer matching no row rewrites nothing. -/
theorem map_updCustomer_eq_self (i : Nat) (n e : String)
    (cs : List CustomerRow) (h : ∀ r ∈ cs, r.id ≠ i) :
    cs.map (updCustomer i n e) = cs := by
  have h2 : ∀ r ∈ cs, updCustomer i n e r = id r := by
    intro r hr
    unfold updCustomer
    rw [if_neg (h r hr)]
    rfl
  rw [List.map_congr_left h2, List.map_id]

/-- UPDATE Reservation matching no row rewrites nothing. -/
theorem map_updReservation_eq_self (i h c : Nat) (d : String) (ni : Int)
    (rs : List ReservationRow) (hno : ∀ r ∈ rs, r.id ≠ i) :
    rs.map (updReservation i h c d ni) = rs := by
  have h2 : ∀ r ∈ rs, updReservation i h c d ni r = id r := by
    intro r hr
    unfold updReservation
    rw [if_neg (hno r hr)]
    rfl
  rw [List.map_congr_left h2, List.map_id]

/-- A successful UPDATE Hotel keeps the three uniqueness properties. -/
theorem hotelTableWF_map_upd (i : Nat) (n l : String) (hs : List HotelRow)
    (hwf : hotelTableWF hs)
    (hok : ∀ r ∈ hs, r.id ≠ i → r.name ≠ n ∧ r.location ≠ l) :
    hotelTableWF (hs.map (updHotel i n l)) := by
  obtain ⟨hid, hname, hloc⟩ := hwf
  refine ⟨?_, ?_, ?_⟩
  · rw [map_updHotel_id]; exact hid
  · exact nodup_map_of_pointwise_update (·.id) (·.name) (updHotel i n l) i n
      (fun a h => by unfold updHotel; rw [if_pos h])
      (fun a h => by unfold updHotel; rw [if_neg h])
      hs hid hname (fun r hr h => (hok r hr h).1)
  · exact nodup_map_of_pointwise_update (·.id) (·.location) (updHotel i n l) i l
      (fun a h => by unfold updHotel; rw [if_pos h])
      (fun a h => by unfold updHotel; rw [if_neg h])
      hs hid hloc (fun r hr h => (hok r hr h).2)

/-- Inserting the fresh row produced by create_hotel keeps the Hotel
table well formed. -/
theorem hotelTableWF_append (hs : List HotelRow) (x : HotelRow)
    (hwf : hotelTableWF hs)
    (hfresh : ∀ r ∈ hs, r.id ≠ x.id ∧ r.name ≠ x.name ∧ r.location ≠ x.location) :
    hotelTableWF (hs ++ [x]) :=
  ⟨nodup_map_append_single hs x (·.id) hwf.1 (fun a ha => (hfresh a ha).1),
   nodup_map_append_single hs x (·.name) hwf.2.1 (fun a ha => (hfresh a ha).2.1),
   nodup_map_append_single hs x (·.location) hwf.2.2 (fun a ha => (hfresh a ha).2.2)⟩

/-- DELETE keeps the Hotel table well formed. -/
theorem hotelTableWF_filter (hs : List HotelRow) (p : HotelRow → Bool)
    (hwf : hotelTableWF hs) : hotelTableWF (hs.filter p) := by
  have hsub : List.Sublist (hs.filter p) hs := List.filter_sublist hs
  exact ⟨hwf.1.sublist (hsub.map _), hwf.2.1.sublist (hsub.map _),
    hwf.2.2.sublist (hsub.map _)⟩

/-- Every DatabaseHandler call preserves the Hotel table's uniqueness
properties. -/
theorem step_preserves_hotelWF {db db' : DB} (hwf : hotelTableWF db.hotels)
    (hst : Step db db') : hotelTableWF db'.hotels := by
  cases hst with
  | createHotel n l =>
    unfold create_hotel
    split
    · exact hwf
    · next h =>
      push_neg at h
      refine hotelTableWF_append db.hotels _ hwf ?_
      intro r hr
      refine ⟨?_, (h r hr).1, (h r hr).2⟩
      exact nextRowId_not_mem db.hotelSeq (db.hotels.map (·.id)) r.id
        (List.mem_map_of_mem _ hr)
  | createCustomer n e =>
    unfold create_customer
    split <;> exact hwf
  | createReservation h c d ni =>
    unfold create_reservation
    split <;> exact hwf
  | updateHotel i n l =>
    unfold update_hotel
    split
    · split
      · exact hwf
      · next h2 =>
        push_neg at h2
        exact hotelTableWF_map_upd i n l db.hotels hwf h2
    · exact hwf
  | updateCustomer i n e =>
    unfold update_customer
    split
    · split <;> exact hwf
    · exact hwf
  | updateReservation i h c d ni =>
    unfold update_reservation
    split
    · split <;> exact hwf
    · exact hwf
  | deleteHotel i =>
    unfold delete_hotel
    split
    · exact hwf
    · split
      · exact hwf
      · exact hotelTableWF_filter db.hotels _ hwf
  | deleteCustomer i =>
    unfold delete_customer
    split
    · exact hwf
    · split <;> exact hwf
  | deleteReservation i =>
    unfold delete_reservation
    split <;> exact hwf

/-- Every reachable database state has a well-formed Hotel table. -/
theorem reachable_hotelTableWF : ∀ db : DB, Reachable db → hotelTableWF db.hotels := by
  intro db h
  induction h with
  | init => exact ⟨List.nodup_nil, List.nodup_nil, List.nodup_nil⟩
  | step _ hst ih => exact step_preserves_hotelWF ih hst

/-- UPDATE Hotel succeeds whenever the new values clash with no row of a
different id (in particular when no row matches the id at all). -/
theorem update_hotel_ok (db : DB) (i : Nat) (n l : String)
    (h : ∀ r ∈ db.hotels, r.id ≠ i → r.name ≠ n ∧ r.location ≠ l) :
    update_hotel db i n l =
      Except.ok { db with hotels := db.hotels.map (updHotel i n l) } := by
  unfold update_hotel
  by_cases hex : ∃ r ∈ db.hotels, r.id = i
  · rw [if_pos hex, if_neg]
    rintro ⟨r, hr, hne, hcl⟩
    rcases hcl with h1 | h1
    · exact (h r hr hne).1 h1
    · exact (h r hr hne).2 h1
  · rw [if_neg hex]
    have habs : ∀ r ∈ db.hotels, r.id ≠ i := by
      intro r hr hri
      exact hex ⟨r, hr, hri⟩
    rw [map_updHotel_eq_self i n l db.hotels habs]

/-- UPDATE Hotel with an id no row carries is a silent no-op. -/
theorem update_hotel_noop (db : DB) (i : Nat) (n l : String)
    (h : ∀ r ∈ db.hotels, r.id ≠ i) : update_hotel db i n l = Except.ok db := by
  unfold update_hotel
  rw [if_neg]
  rintro ⟨r, hr, hri⟩
  exact h r hr hri

/-- UPDATE Customer succeeds whenever the new email clashes with no row of
a different id. -/
theorem update_customer_ok (db : DB) (i : Nat) (n e : String)
    (h : ∀ r ∈ db.customers, r.id ≠ i → r.email ≠ e) :
    update_customer db i n e =
      Except.ok { db with customers := db.customers.map (updCustomer i n e) } := by
  unfold update_customer
  by_cases hex : ∃ r ∈ db.customers, r.id = i
  · rw [if_pos hex, if_neg]
    rintro ⟨r, hr, hne, hcl⟩
    exact h r hr hne hcl
  · rw [if_neg hex]
    have habs : ∀ r ∈ db.customers, r.id ≠ i := by
      intro r hr hri
      exact hex ⟨r, hr, hri⟩
    rw [map_updCustomer_eq_self i n e db.customers habs]

/-- UPDATE Customer with an id no row carries is a silent no-op. -/
theorem update_customer_noop (db : DB) (i : Nat) (n e : String)
    (h : ∀ r ∈ db.customers, r.id ≠ i) :
    update_customer db i n e = Except.ok db := by
  unfold update_customer
  rw [if_neg]
  rintro ⟨r, hr, hri⟩
  exact h r hr hri

/-- UPDATE Reservation succeeds whenever the new foreign keys reference
existing rows. -/
theorem update_reservation_ok (db : DB) (i h c : Nat) (d : String) (ni : Int)
    (hh : ∃ r ∈ db.hotels, r.id = h) (hc : ∃ r ∈ db.customers, r.id = c) :
    update_reservation db i h c d ni =
      Except.ok { db with
        reservations := db.reservations.map (updReservation i h c d ni) } := by
  unfold update_reservation
  by_cases hex : ∃ r ∈ db.reservations, r.id = i
  · rw [if_pos hex, if_pos ⟨hh, hc⟩]
  · rw [if_neg hex]
    have habs : ∀ r ∈ db.reservations, r.id ≠ i := by
      intro r hr hri
      exact hex ⟨r, hr, hri⟩
    rw [map_updReservation_eq_self i h c d ni db.reservations habs]

/-- UPDATE Reservation with an id no row carries is a silent no-op. -/
theorem update_reservation_noop (db : DB) (i h c : Nat) (d : String) (ni : Int)
    (hno : ∀ r ∈ db.reservations, r.id ≠ i) :
    update_reservation db i h c d ni = Except.ok db := by
  unfold update_reservation
  rw [if_neg]
  rintro ⟨r, hr, hri⟩
  exact hno r hr hri

/-- After UPDATE Hotel, the first row matching the id carries the new
name and location. -/
theorem find?_map_updHotel (i : Nat) (n l : String) :
    ∀ hs : List HotelRow, (∃ r ∈ hs, r.id = i) →
      ∃ h, (hs.map (updHotel i n l)).find? (fun r => r.id == i) = some h ∧
        h.id = i ∧ h.name = n ∧ h.location = l := by
  intro hs
  induction hs with
  | nil => rintro ⟨r, hr, _⟩; cases hr
  | cons a t ih =>
    rintro ⟨r, hr, hri⟩
    by_cases ha : a.id = i
    · refine ⟨{ a with name := n, location := l }, ?_, ha, rfl, rfl⟩
      have hua : updHotel i n l a = { a with name := n, location := l } := by
        unfold updHotel
        rw [if_pos ha]
      rw [List.map_cons, hua]
      exact List.find?_cons_of_pos _ (by simpa using ha)
    · have hua : updHotel i n l a = a := by
        unfold updHotel
        rw [if_neg ha]
      rw [List.map_cons, hua, List.find?_cons_of_neg _ (by simpa using ha)]
      apply ih
      rcases List.mem_cons.mp hr with h1 | h1
      · exact absurd (h1 ▸ hri) ha
      · exact ⟨r, h1, hri⟩

/-- After DELETE ... WHERE ID = i, no lookup by id i succeeds. -/
theorem find?_filter_key_none {α : Type} (key : α → Nat) (i : Nat)
    (l : List α) :
    (l.filter (fun r => key r != i)).find? (fun r => key r == i) = none := by
  rw [List.find?_eq_none]
  intro x hx
  have h := (List.mem_filter.mp hx).2
  simpa using h

/-- Claim C1: each create operation, when the insert satisfies every
uniqueness and foreign-key constraint, returns the fully populated record
whose surrogate key is the freshly assigned rowid (appending exactly that
row); when the insert violates a uniqueness or foreign-key constraint
(including a reservation whose hotel_id or customer_id is absent), it
returns None without propagating the storage error and leaves the
database unchanged. -/
theorem C1_create_ops :
    (∀ db n l, (∀ r ∈ db.hotels, r.name ≠ n ∧ r.location ≠ l) →
      create_hotel db n l =
        (some ⟨hotelNextId db, n, l⟩,
         { db with hotels := db.hotels ++ [⟨hotelNextId db, n, l⟩],
                   hotelSeq := hotelNextId db })) ∧
    (∀ db n l, (∃ r ∈ db.hotels, r.name = n ∨ r.location = l) →
      create_hotel db n l = (none, db)) ∧
    (∀ db n e, (∀ r ∈ db.customers, r.email ≠ e) →
      create_customer db n e =
        (some ⟨customerNextId db, n, e⟩,
         { db with customers := db.customers ++ [⟨customerNextId db, n, e⟩],
                   customerSeq := customerNextId db })) ∧
    (∀ db n e, (∃ r ∈ db.customers, r.email = e) →
      create_customer db n e = (none, db)) ∧
    (∀ db h c d ni, (∃ r ∈ db.hotels, r.id = h) →
      (∃ r ∈ db.customers, r.id = c) →
      create_reservation db h c d ni =
        (some ⟨reservationNextId db, h, c, d, ni⟩,
         { db with
            reservations := db.reservations ++
              [⟨reservationNextId db, h, c, d, ni⟩],
            reservationSeq := reservationNextId db })) ∧
    (∀ db h c d ni,
      ((∀ r ∈ db.hotels, r.id ≠ h) ∨ (∀ r ∈ db.customers, r.id ≠ c)) →
      create_reservation db h c d ni = (none, db)) := by
  refine ⟨?_, ?_, ?_, ?_, ?_, ?_⟩
  · intro db n l h
    unfold create_hotel
    rw [if_neg]
    rintro ⟨r, hr, hcl⟩
    rcases hcl with h1 | h1
    · exact (h r hr).1 h1
    · exact (h r hr).2 h1
  · intro db n l h
    unfold create_hotel
    rw [if_pos h]
  · intro db n e h
    unfold create_customer
    rw [if_neg]
    rintro ⟨r, hr, h1⟩
    exact h r hr h1
  · intro db n e h
    unfold create_customer
    rw [if_pos h]
  · intro db h c d ni hh hc
    unfold create_reservation
    rw [if_pos ⟨hh, hc⟩]
  · intro db h c d ni hor
    unfold create_reservation
    rw [if_neg]
    rintro ⟨⟨r, hr, hri⟩, ⟨s, hs, hsi⟩⟩
    rcases hor with h1 | h1
    · exact h1 r hr hri
    · exact h1 s hs hsi

/-- Claim C1 witness: the create contract evaluated on concrete states. -/
theorem C1_create_ops_witness :
    create_hotel emptyDB ("Hotel A") ("Location A") =
      (some ⟨1, "Hotel A", "Location A"⟩, dbH1) ∧
    create_hotel dbH1 ("Hotel A") ("Elsewhere") = (none, dbH1) ∧
    (create_customer emptyDB ("John Doe") ("john@example.com")).1 =
      some ⟨1, "John Doe", "john@example.com"⟩ ∧
    create_customer dbHC ("Jane Smith") ("john@example.com") = (none, dbHC) ∧
    create_reservation dbHC 1 1 ("2024-02-20") 5 =
      (some ⟨1, 1, 1, "2024-02-20", 5⟩, dbFull) ∧
    create_reservation dbHC 999 1 ("2024-02-20") 5 = (none, dbHC) := by
  refine ⟨?_, ?_, ?_, ?_, ?_, ?_⟩
  · exact C1_create_ops.1 emptyDB ("Hotel A") ("Location A") (by decide)
  · exact C1_create_ops.2.1 dbH1 ("Hotel A") ("Elsewhere")
      ⟨⟨1, "Hotel A", "Location A"⟩, by decide, Or.inl rfl⟩
  · rw [C1_create_ops.2.2.1 emptyDB ("John Doe") ("john@example.com") (by decide)]
    rfl
  · exact C1_create_ops.2.2.2.1 dbHC ("Jane Smith") ("john@example.com")
      ⟨⟨1, "John Doe", "john@example.com"⟩, by decide, rfl⟩
  · exact C1_create_ops.2.2.2.2.1 dbHC 1 1 ("2024-02-20") 5
      ⟨⟨1, "Hotel A", "Location A"⟩, by decide, rfl⟩
      ⟨⟨1, "John Doe", "john@example.com"⟩, by decide, rfl⟩
  · exact C1_create_ops.2.2.2.2.2 dbHC 999 1 ("2024-02-20") 5
      (Or.inl (by decide))

/-- Claim C2 is false on the code: update_hotel on an existing id whose
new name is already carried by a different hotel raises IntegrityError
(the UPDATE statement has no exception handler), and update_reservation
pointing an existing reservation at a non-existent hotel_id does too. -/
theorem C2_update_raises_counterexample :
    update_hotel dbTwoHotels 2 ("Hotel A") ("Location Z") =
      Except.error DBError.integrityError ∧
    update_reservation dbFull 1 999 1 ("2024-02-20") 5 =
      Except.error DBError.integrityError := by
  exact ⟨rfl, rfl⟩

/-- Claim C2 amended: an update never raises provided the new values
violate no uniqueness or foreign-key constraint against a row of a
different id; then an existing target row has its non-key fields
overwritten, and a missing target id is a silent no-op that leaves every
table unchanged, for every field values. -/
theorem C2_updates_amended :
    (∀ db i n l, (∀ r ∈ db.hotels, r.id ≠ i → r.name ≠ n ∧ r.location ≠ l) →
      update_hotel db i n l =
        Except.ok { db with hotels := db.hotels.map (updHotel i n l) }) ∧
    (∀ db i n l, (∀ r ∈ db.hotels, r.id ≠ i) →
      update_hotel db i n l = Except.ok db) ∧
    (∀ db i n e, (∀ r ∈ db.customers, r.id ≠ i → r.email ≠ e) →
      update_customer db i n e =
        Except.ok { db with customers := db.customers.map (updCustomer i n e) }) ∧
    (∀ db i n e, (∀ r ∈ db.customers, r.id ≠ i) →
      update_customer db i n e = Except.ok db) ∧
    (∀ db i h c d ni, (∃ r ∈ db.hotels, r.id = h) →
      (∃ r ∈ db.customers, r.id = c) →
      update_reservation db i h c d ni =
        Except.ok { db with
          reservations := db.reservations.map (updReservation i h c d ni) }) ∧
    (∀ db i h c d ni, (∀ r ∈ db.reservations, r.id ≠ i) →
      update_reservation db i h c d ni = Except.ok db) :=
  ⟨update_hotel_ok, update_hotel_noop, update_customer_ok,
   update_customer_noop, update_reservation_ok, update_reservation_noop⟩

/-- Claim C2 amended witness: updates evaluated on concrete states. -/
theorem C2_updates_amended_witness :
    update_hotel dbH1 1 ("Hotel B") ("Location B") =
      Except.ok ⟨[⟨1, "Hotel B", "Location B"⟩], [], [], 1, 0, 0⟩ ∧
    update_hotel emptyDB 999 ("X") ("Y") = Except.ok emptyDB ∧
    update_customer dbHC 1 ("Jane Smith") ("jane@example.com") =
      Except.ok ⟨[⟨1, "Hotel A", "Location A"⟩],
        [⟨1, "Jane Smith", "jane@example.com"⟩], [], 1, 1, 0⟩ ∧
    update_customer emptyDB 999 ("X") ("x@example.com") = Except.ok emptyDB ∧
    update_reservation dbFull 1 1 1 ("2024-03-10") 7 =
      Except.ok ⟨[⟨1, "Hotel A", "Location A"⟩],
        [⟨1, "John Doe", "john@example.com"⟩],
        [⟨1, 1, 1, "2024-03-10", 7⟩], 1, 1, 1⟩ ∧
    update_reservation dbFull 999 1 1 ("2024-03-10") 7 = Except.ok dbFull := by
  refine ⟨?_, ?_, ?_, ?_, ?_, ?_⟩
  · exact C2_updates_amended.1 dbH1 1 ("Hotel B") ("Location B") (by decide)
  · exact C2_updates_amended.2.1 emptyDB 999 ("X") ("Y") (by decide)
  · exact C2_updates_amended.2.2.1 dbHC 1 ("Jane Smith") ("jane@example.com")
      (by decide)
  · exact C2_updates_amended.2.2.2.1 emptyDB 999 ("X") ("x@example.com")
      (by decide)
  · exact C2_updates_amended.2.2.2.2.1 dbFull 1 1 1 ("2024-03-10") 7
      ⟨⟨1, "Hotel A", "Location A"⟩, by decide, rfl⟩
      ⟨⟨1, "John Doe", "john@example.com"⟩, by decide, rfl⟩
  · exact C2_updates_amended.2.2.2.2.2 dbFull 999 1 1 ("2024-03-10") 7
      (by decide)

/-- Claim C3 fails on the code: get_reservation_by_details never returns
a result.  Its SQL text is built from two adjacent string literals whose
concatenation lacks a space (the token WHEREHOTEL_ID), so when both
natural-key lookups succeed the call raises sqlite3.OperationalError even
though the matching reservation exists, and when the hotel or the
customer lookup returns None the call raises AttributeError while
building the parameter tuple. -/
theorem C3_get_reservation_by_details_bug :
    get_reservation_by_id dbFull 1 = some ⟨1, 1, 1, "2024-02-20", 5⟩ ∧
    get_reservation_by_details dbFull ("Hotel A") ("john@example.com")
        ("2024-02-20") = Except.error DBError.operationalError ∧
    get_reservation_by_details dbFull ("No Hotel") ("john@example.com")
        ("2024-02-20") = Except.error DBError.attributeError ∧
    get_reservation_by_details dbFull ("Hotel A") ("nobody@example.com")
        ("2024-02-20") = Except.error DBError.attributeError := by
  exact ⟨rfl, rfl, rfl, rfl⟩

/-- Claim C4: each delete on an id absent from its table raises
ValueError before any mutation, leaving the database state unchanged;
on an id that is present (and, for hotels and customers, referenced by
no reservation) the row is removed, so a subsequent lookup by that id
finds nothing. -/
theorem C4_delete_ops :
    (∀ db i, get_hotel_by_id db i = none →
      delete_hotel db i = Except.error DBError.valueError ∧
        applyUpd db (delete_hotel db i) = db) ∧
    (∀ db i, get_customer_by_id db i = none →
      delete_customer db i = Except.error DBError.valueError ∧
        applyUpd db (delete_customer db i) = db) ∧
    (∀ db i, get_reservation_by_id db i = none →
      delete_reservation db i = Except.error DBError.valueError ∧
        applyUpd db (delete_reservation db i) = db) ∧
    (∀ db i, get_hotel_by_id db i ≠ none →
      (∀ r ∈ db.reservations, r.hotel_id ≠ i) →
      delete_hotel db i =
        Except.ok { db with hotels := db.hotels.filter (fun r => r.id != i) } ∧
      get_hotel_by_id
        { db with hotels := db.hotels.filter (fun r => r.id != i) } i = none) ∧
    (∀ db i, get_customer_by_id db i ≠ none →
      (∀ r ∈ db.reservations, r.customer_id ≠ i) →
      delete_customer db i =
        Except.ok { db with customers := db.customers.filter (fun r => r.id != i) } ∧
      get_customer_by_id
        { db with customers := db.customers.filter (fun r => r.id != i) } i = none) ∧
    (∀ db i, get_reservation_by_id db i ≠ none →
      delete_reservation db i =
        Except.ok { db with
          reservations := db.reservations.filter (fun r => r.id != i) } ∧
      get_reservation_by_id
        { db with reservations := db.reservations.filter (fun r => r.id != i) } i
        = none) := by
  refine ⟨?_, ?_, ?_, ?_, ?_, ?_⟩
  · intro db i h
    simp only [delete_hotel, h]
    exact ⟨trivial, rfl⟩
  · intro db i h
    simp only [delete_customer, h]
    exact ⟨trivial, rfl⟩
  · intro db i h
    simp only [delete_reservation, h]
    exact ⟨trivial, rfl⟩
  · intro db i h href
    rcases Option.ne_none_iff_exists'.mp h with ⟨r, hr⟩
    refine ⟨?_, ?_⟩
    · simp only [delete_hotel, hr]
      rw [if_neg]
      rintro ⟨s, hs, hsi⟩
      exact href s hs hsi
    · exact find?_filter_key_none (fun r => r.id) i db.hotels
  · intro db i h href
    rcases Option.ne_none_iff_exists'.mp h with ⟨r, hr⟩
    refine ⟨?_, ?_⟩
    · simp only [delete_customer, hr]
      rw [if_neg]
      rintro ⟨s, hs, hsi⟩
      exact href s hs hsi
    · exact find?_filter_key_none (fun r => r.id) i db.customers
  · intro db i h
    rcases Option.ne_none_iff_exists'.mp h with ⟨r, hr⟩
    refine ⟨?_, ?_⟩
    · simp only [delete_reservation, hr]
    · exact find?_filter_key_none (fun r => r.id) i db.reservations

/-- Claim C4 witness: deletes evaluated on concrete states. -/
theorem C4_delete_ops_witness :
    delete_hotel emptyDB 999 = Except.error DBError.valueError ∧
    delete_customer emptyDB 999 = Except.error DBError.valueError ∧
    delete_reservation emptyDB 999 = Except.error DBError.valueError ∧
    delete_hotel dbH1 1 = Except.ok ⟨[], [], [], 1, 0, 0⟩ ∧
    get_hotel_by_id ⟨[], [], [], 1, 0, 0⟩ 1 = none ∧
    delete_customer dbHC 1 =
      Except.ok ⟨[⟨1, "Hotel A", "Location A"⟩], [], [], 1, 1, 0⟩ ∧
    delete_reservation dbFull 1 =
      Except.ok ⟨[⟨1, "Hotel A", "Location A"⟩],
        [⟨1, "John Doe", "john@example.com"⟩], [], 1, 1, 1⟩ := by
  refine ⟨?_, ?_, ?_, ?_, ?_, ?_, ?_⟩
  · exact (C4_delete_ops.1 emptyDB 999 rfl).1
  · exact (C4_delete_ops.2.1 emptyDB 999 rfl).1
  · exact (C4_delete_ops.2.2.1 emptyDB 999 rfl).1
  · exact (C4_delete_ops.2.2.2.1 dbH1 1 (by decide) (by decide)).1
  · exact (C4_delete_ops.2.2.2.1 dbH1 1 (by decide) (by decide)).2
  · exact (C4_delete_ops.2.2.2.2.1 dbHC 1 (by decide) (by decide)).1
  · exact (C4_delete_ops.2.2.2.2.2 dbFull 1 (by decide)).1

/-- Claim C5: when some reservation references a hotel or customer id
that is present, delete_hotel / delete_customer is blocked by the
restrictive foreign key: the call propagates IntegrityError, the state
the caller observes is unchanged, and the referenced row is still
present afterwards. -/
theorem C5_restrict_delete :
    (∀ db i, get_hotel_by_id db i ≠ none →
      (∃ r ∈ db.reservations, r.hotel_id = i) →
      delete_hotel db i = Except.error DBError.integrityError ∧
        applyUpd db (delete_hotel db i) = db ∧
        get_hotel_by_id (applyUpd db (delete_hotel db i)) i ≠ none) ∧
    (∀ db i, get_customer_by_id db i ≠ none →
      (∃ r ∈ db.reservations, r.customer_id = i) →
      delete_customer db i = Except.error DBError.integrityError ∧
        applyUpd db (delete_customer db i) = db ∧
        get_customer_by_id (applyUpd db (delete_customer db i)) i ≠ none) := by
  constructor
  · intro db i h href
    rcases Option.ne_none_iff_exists'.mp h with ⟨r, hr⟩
    have herr : delete_hotel db i = Except.error DBError.integrityError := by
      simp only [delete_hotel, hr]
      rw [if_pos href]
    refine ⟨herr, ?_, ?_⟩
    · rw [herr]
      rfl
    · rw [herr]
      exact h
  · intro db i h href
    rcases Option.ne_none_iff_exists'.mp h with ⟨r, hr⟩
    have herr : delete_customer db i = Except.error DBError.integrityError := by
      simp only [delete_customer, hr]
      rw [if_pos href]
    refine ⟨herr, ?_, ?_⟩
    · rw [herr]
      rfl
    · rw [herr]
      exact h

/-- Claim C5 witness: the referenced hotel and customer of the concrete
populated state cannot be deleted. -/
theorem C5_restrict_delete_witness :
    delete_hotel dbFull 1 = Except.error DBError.integrityError ∧
    get_hotel_by_id (applyUpd dbFull (delete_hotel dbFull 1)) 1 ≠ none ∧
    delete_customer dbFull 1 = Except.error DBError.integrityError ∧
    get_customer_by_id (applyUpd dbFull (delete_customer dbFull 1)) 1 ≠ none := by
  have h1 := C5_restrict_delete.1 dbFull 1 (by decide)
    ⟨⟨1, 1, 1, "2024-02-20", 5⟩, by decide, rfl⟩
  have h2 := C5_restrict_delete.2 dbFull 1 (by decide)
    ⟨⟨1, 1, 1, "2024-02-20", 5⟩, by decide, rfl⟩
  exact ⟨h1.1, h1.2.2, h2.1, h2.2.2⟩

/-- Claim C6: in every reachable state no two hotels share a name and no
two share a location; create_hotel with a name and location both unused
returns the record carrying the freshly assigned rowid, which differs
from every existing hotel id, and create_hotel repeating an already used
name or location returns None. -/
theorem C6_hotel_uniqueness :
    (∀ db, Reachable db →
      (db.hotels.map (·.name)).Nodup ∧ (db.hotels.map (·.location)).Nodup) ∧
    (∀ db n l, (∀ r ∈ db.hotels, r.name ≠ n ∧ r.location ≠ l) →
      (create_hotel db n l).1 = some ⟨hotelNextId db, n, l⟩ ∧
        ∀ r ∈ db.hotels, r.id ≠ hotelNextId db) ∧
    (∀ db n l, (∃ r ∈ db.hotels, r.name = n ∨ r.location = l) →
      (create_hotel db n l).1 = none) := by
  refine ⟨?_, ?_, ?_⟩
  · intro db h
    exact ⟨(reachable_hotelTableWF db h).2.1, (reachable_hotelTableWF db h).2.2⟩
  · intro db n l h
    constructor
    · unfold create_hotel
      rw [if_neg]
      rintro ⟨r, hr, hcl⟩
      rcases hcl with h1 | h1
      · exact (h r hr).1 h1
      · exact (h r hr).2 h1
    · intro r hr
      exact nextRowId_not_mem db.hotelSeq (db.hotels.map (·.id)) r.id
        (List.mem_map_of_mem _ hr)
  · intro db n l h
    unfold create_hotel
    rw [if_pos h]

/-- Claim C6 witness: the uniqueness facts evaluated on the concrete
reachable one-hotel state. -/
theorem C6_hotel_uniqueness_witness :
    ((dbH1.hotels.map (·.name)).Nodup ∧
      (dbH1.hotels.map (·.location)).Nodup) ∧
    (create_hotel dbH1 ("Hotel B") ("Location B")).1 =
      some ⟨2, "Hotel B", "Location B"⟩ ∧
    (1 : Nat) ≠ hotelNextId dbH1 ∧
    (create_hotel dbH1 ("Hotel A") ("Elsewhere")).1 = none ∧
    (create_hotel dbH1 ("Hotel C") ("Location A")).1 = none := by
  have hreach : Reachable dbH1 :=
    Reachable.step Reachable.init
      (@Step.createHotel emptyDB ("Hotel A") ("Location A"))
  have h1 := C6_hotel_uniqueness.1 dbH1 hreach
  have h2 := C6_hotel_uniqueness.2.1 dbH1 ("Hotel B") ("Location B") (by decide)
  have h3 := C6_hotel_uniqueness.2.2 dbH1 ("Hotel A") ("Elsewhere")
    ⟨⟨1, "Hotel A", "Location A"⟩, by decide, Or.inl rfl⟩
  have h4 := C6_hotel_uniqueness.2.2 dbH1 ("Hotel C") ("Location A")
    ⟨⟨1, "Hotel A", "Location A"⟩, by decide, Or.inr rfl⟩
  exact ⟨h1, h2.1, h2.2 ⟨1, "Hotel A", "Location A"⟩ (by decide), h3, h4⟩

/-- Claim C7: customer uniqueness is on email alone; create_customer
repeating a used email returns None whatever the name, and with a fresh
email it succeeds even when the name duplicates an existing customer's
name. -/
theorem C7_customer_email_uniqueness :
    (∀ db n e, (∃ r ∈ db.customers, r.email = e) →
      create_customer db n e = (none, db)) ∧
    (∀ db n e, (∀ r ∈ db.customers, r.email ≠ e) →
      (create_customer db n e).1 = some ⟨customerNextId db, n, e⟩) := by
  constructor
  · intro db n e h
    unfold create_customer
    rw [if_pos h]
  · intro db n e h
    unfold create_customer
    rw [if_neg]
    rintro ⟨r, hr, h1⟩
    exact h r hr h1

/-- Claim C7 witness: a duplicate email with a different name fails; a
fresh email with a duplicated name succeeds. -/
theorem C7_customer_email_uniqueness_witness :
    create_customer dbHC ("Jane Smith") ("john@example.com") = (none, dbHC) ∧
    (create_customer dbHC ("John Doe") ("jane@example.com")).1 =
      some ⟨2, "John Doe", "jane@example.com"⟩ := by
  constructor
  · exact C7_customer_email_uniqueness.1 dbHC ("Jane Smith")
      ("john@example.com")
      ⟨⟨1, "John Doe", "john@example.com"⟩, by decide, rfl⟩
  · exact C7_customer_email_uniqueness.2 dbHC ("John Doe")
      ("jane@example.com") (by decide)

/-- Claim C8 fails on the code: the storage engine never rejects empty
strings (NOT NULL does not exclude them and the PRAGMA named in
DatabaseHandler.__init__ does not exist), so create_hotel accepts an
empty name or location and create_customer accepts an empty email,
returning populated entities; a state whose hotel has an empty name is
reachable. -/
theorem C8_empty_string_bug :
    Reachable (⟨[⟨1, "", "Location A"⟩], [], [], 1, 0, 0⟩ : DB) ∧
    (create_hotel emptyDB ("") ("Location A")).1 =
      some ⟨1, "", "Location A"⟩ ∧
    (create_hotel emptyDB ("Hotel A") ("")).1 = some ⟨1, "Hotel A", ""⟩ ∧
    (create_customer emptyDB ("John Doe") ("")).1 =
      some ⟨1, "John Doe", ""⟩ := by
  refine ⟨?_, rfl, rfl, rfl⟩
  exact Reachable.step Reachable.init
    (@Step.createHotel emptyDB ("") ("Location A"))

/-- Claim C9: updating an existing hotel's name and location to values
satisfying the uniqueness constraints and then reading the hotel back by
id returns a record carrying exactly the updated name and location. -/
theorem C9_update_then_get :
    ∀ db i n l, (∃ r ∈ db.hotels, r.id = i) →
      (∀ r ∈ db.hotels, r.id ≠ i → r.name ≠ n ∧ r.location ≠ l) →
      update_hotel db i n l =
        Except.ok { db with hotels := db.hotels.map (updHotel i n l) } ∧
      get_hotel_by_id { db with hotels := db.hotels.map (updHotel i n l) } i =
        some ⟨i, n, l⟩ := by
  intro db i n l hex hok
  refine ⟨update_hotel_ok db i n l hok, ?_⟩
  rcases find?_map_updHotel i n l db.hotels hex with ⟨h, hfind, hid, hn, hl⟩
  have hrec : h = (⟨i, n, l⟩ : HotelRow) := by
    rw [← hid, ← hn, ← hl]
  show (db.hotels.map (updHotel i n l)).find? (fun r => r.id == i) =
    some ⟨i, n, l⟩
  rw [hfind, hrec]

/-- Claim C9 witness: update then read back on the concrete two-hotel
state. -/
theorem C9_update_then_get_witness :
    update_hotel dbTwoHotels 2 ("Hotel C") ("Location C") =
      Except.ok ⟨[⟨1, "Hotel A", "Location A"⟩, ⟨2, "Hotel C", "Location C"⟩],
        [], [], 2, 0, 0⟩ ∧
    get_hotel_by_id
      (⟨[⟨1, "Hotel A", "Location A"⟩, ⟨2, "Hotel C", "Location C"⟩],
        [], [], 2, 0, 0⟩ : DB) 2 = some ⟨2, "Hotel C", "Location C"⟩ := by
  have h := C9_update_then_get dbTwoHotels 2 ("Hotel C") ("Location C")
    ⟨⟨2, "Hotel B", "Location B"⟩, by decide, rfl⟩ (by decide)
  exact ⟨h.1, h.2⟩

/-- Claim C10: every mutating operation, successful or failed, leaves the
rows of the two tables it does not target unchanged; in particular no
delete ever cascades into the Reservation table. -/
theorem C10_frame_effects :
    ∀ db : DB,
      (∀ n l, (create_hotel db n l).2.customers = db.customers ∧
        (create_hotel db n l).2.reservations = db.reservations) ∧
      (∀ n e, (create_customer db n e).2.hotels = db.hotels ∧
        (create_customer db n e).2.reservations = db.reservations) ∧
      (∀ h c d ni, (create_reservation db h c d ni).2.hotels = db.hotels ∧
        (create_reservation db h c d ni).2.customers = db.customers) ∧
      (∀ i n l, (applyUpd db (update_hotel db i n l)).customers = db.customers ∧
        (applyUpd db (update_hotel db i n l)).reservations = db.reservations) ∧
      (∀ i n e, (applyUpd db (update_customer db i n e)).hotels = db.hotels ∧
        (applyUpd db (update_customer db i n e)).reservations = db.reservations) ∧
      (∀ i h c d ni,
        (applyUpd db (update_reservation db i h c d ni)).hotels = db.hotels ∧
        (applyUpd db (update_reservation db i h c d ni)).customers = db.customers) ∧
      (∀ i, (applyUpd db (delete_hotel db i)).customers = db.customers ∧
        (applyUpd db (delete_hotel db i)).reservations = db.reservations) ∧
      (∀ i, (applyUpd db (delete_customer db i)).hotels = db.hotels ∧
        (applyUpd db (delete_customer db i)).reservations = db.reservations) ∧
      (∀ i, (applyUpd db (delete_reservation db i)).hotels = db.hotels ∧
        (applyUpd db (delete_reservation db i)).customers = db.customers) := by
  intro db
  refine ⟨?_, ?_, ?_, ?_, ?_, ?_, ?_, ?_, ?_⟩
  · intro n l
    unfold create_hotel
    split <;> exact ⟨rfl, rfl⟩
  · intro n e
    unfold create_customer
    split <;> exact ⟨rfl, rfl⟩
  · intro h c d ni
    unfold create_reservation
    split <;> exact ⟨rfl, rfl⟩
  · intro i n l
    unfold update_hotel
    split
    · split <;> exact ⟨rfl, rfl⟩
    · exact ⟨rfl, rfl⟩
  · intro i n e
    unfold update_customer
    split
    · split <;> exact ⟨rfl, rfl⟩
    · exact ⟨rfl, rfl⟩
  · intro i h c d ni
    unfold update_reservation
    split
    · split <;> exact ⟨rfl, rfl⟩
    · exact ⟨rfl, rfl⟩
  · intro i
    unfold delete_hotel
    split
    · exact ⟨rfl, rfl⟩
    · split <;> exact ⟨rfl, rfl⟩
  · intro i
    unfold delete_customer
    split
    · exact ⟨rfl, rfl⟩
    · split <;> exact ⟨rfl, rfl⟩
  · intro i
    unfold delete_reservation
    split <;> exact ⟨rfl, rfl⟩
